import Mathlib

/-! Verification of the tile-address resolution logic of the multi-source
downloader (`link_generator.py` together with the FROM_GLC download
scripts).  Python floats are modelled as rationals, Python ints as `ℤ`,
Python strings as `String` values manipulated through their underlying
character lists, and generator functions as list-returning functions. -/

namespace Geo

/-- Python `int(v)` applied to a float value: truncation toward zero. -/
def pyInt (v : ℚ) : ℤ := if v < 0 then ⌈v⌉ else ⌊v⌋

/-- Python `range(start, stop, 10)` (ascending, step 10). -/
def pyRangeUp (start stop : ℤ) : List ℤ :=
  (List.range ((stop - start + 9) / 10).toNat).map (fun i : ℕ => start + 10 * (i : ℤ))

/-- Python `range(start, stop, -10)` (descending, step 10). -/
def pyRangeDown (start stop : ℤ) : List ℤ :=
  (List.range ((start - stop + 9) / 10).toNat).map (fun i : ℕ => start - 10 * (i : ℤ))

/-- Python `str.split` with a one-character separator: splits at every
occurrence of `c`, keeping empty parts. -/
def splitChar (c : Char) : List Char → List (List Char)
  | [] => [[]]
  | x :: xs =>
    match splitChar c xs with
    | [] => [[]]
    | g :: gs => if x = c then [] :: g :: gs else (x :: g) :: gs

/-- Numeric value of a list of decimal digit characters. -/
def digitsVal (l : List Char) : ℕ := l.foldl (fun a c => 10 * a + (c.toNat - 48)) 0

/-- Python `int(s)` on a string: optional surrounding whitespace, an
optional single sign, then at least one decimal digit; any other shape
raises `ValueError`, modelled as `none`. -/
def pyStrInt (l : List Char) : Option ℤ :=
  let t := ((l.dropWhile Char.isWhitespace).reverse.dropWhile Char.isWhitespace).reverse
  match t with
  | '-' :: rest =>
    if rest ≠ [] ∧ rest.all Char.isDigit then some (-(digitsVal rest : ℤ)) else none
  | '+' :: rest =>
    if rest ≠ [] ∧ rest.all Char.isDigit then some (digitsVal rest : ℤ) else none
  | rest =>
    if rest ≠ [] ∧ rest.all Char.isDigit then some (digitsVal rest : ℤ) else none

/-- Decimal digit characters of `n`, most significant first; the fuel
argument makes the recursion structural. -/
def natDigitsAux : ℕ → ℕ → List Char
  | 0, _ => []
  | fuel + 1, n =>
    if n < 10 then [Char.ofNat (48 + n)]
    else natDigitsAux fuel (n / 10) ++ [Char.ofNat (48 + n % 10)]

/-- Decimal representation of a natural number (Python `str` / f-string). -/
def natDigits (n : ℕ) : List Char := natDigitsAux (n + 1) n

/-- Decimal representation of an integer (Python `str`). -/
def intDigits (n : ℤ) : List Char :=
  if n < 0 then '-' :: natDigits n.natAbs else natDigits n.natAbs

/-- Left zero-padding to width `w` (Python format spec `0>w`). -/
def padZeros (w : ℕ) (l : List Char) : List Char :=
  List.replicate (w - l.length) '0' ++ l

/-- One record of a FROM_GLC metadata snapshot: the `{id, name}` pairs of
the catalog JSON consumed by the resolvers. -/
structure CatalogEntry where
  id : String
  name : String

/-- Sort key of `find_closest_year` (link_generator.py line 455): the
absolute distance to the target year, then the negated year. -/
def closestKey (target_year y : ℤ) : ℤ × ℤ := (|y - target_year|, -y)

/-- Strict lexicographic comparison of pairs, as Python compares tuples. -/
def pairLt (p q : ℤ × ℤ) : Prop := p.1 < q.1 ∨ (p.1 = q.1 ∧ p.2 < q.2)

instance (p q : ℤ × ℤ) : Decidable (pairLt p q) := by
  unfold pairLt; infer_instance

/-- Python `min(x :: xs, key=...)`: the first element with minimal key. -/
def pyMinBy (key : ℤ → ℤ × ℤ) (x : ℤ) (xs : List ℤ) : ℤ :=
  xs.foldl (fun b y => if pairLt (key y) (key b) then y else b) x

/-- `find_closest_year` of link_generator.py (lines 447-456): `None` on an
empty list, otherwise `min(available_years, key=lambda y: (abs(y - target_year), -y))`. -/
def find_closest_year (target_year : ℤ) : List ℤ → Option ℤ
  | [] => none
  | x :: xs => some (pyMinBy (closestKey target_year) x xs)

/-- Year snapping performed by the `__main__` driver of link_generator.py
(lines 525-531): when the source has a truthy (non-empty) availability
list that misses the requested year, the year is replaced by the closest
available one; otherwise it is kept unchanged. -/
def resolve_year (year : ℤ) (available_years : Option (List ℤ)) : ℤ :=
  match available_years with
  | none => year
  | some ys =>
    if ys ≠ [] ∧ year ∉ ys then (find_closest_year year ys).getD year else year

/-- `GWL_FCS30_{map_year}.zip` link template of `get_links_gfc_fcs30d`. -/
def gfc_fcs30d_link (map_year : ℤ) : String :=
  "https://zenodo.org/records/10068479/files/GWL_FCS30_" ++
    (⟨intDigits map_year⟩ : String) ++ ".zip?download=1"

/-- The `predefined_bboxes` dictionary of `get_links_gfc_fcs30d`
(link_generator.py lines 82-89), as `(min_lat, max_lat, min_lon, max_lon)`. -/
def predefined_bboxes (map_year : ℤ) : Option (ℚ × ℚ × ℚ × ℚ) :=
  if map_year = 2000 then some (3.5, 16.3, 27, 43.3)
  else if map_year = 2005 then some (3.5, 16.3, 27, 43.3)
  else if map_year = 2010 then some (3.5, 16.3, 27, 43.3)
  else if map_year = 2015 then some (3.5, 16.3, 27, 43.3)
  else if map_year = 2019 then some (-0.1, 18.1, 9.9, 43.3)
  else if map_year = 2022 then some (3.5, 16.3, 27, 43.3)
  else none

/-- The `global_coverage_years` list of `get_links_gfc_fcs30d`. -/
def global_coverage_years : List ℤ := [2000, 2005, 2010, 2015, 2019, 2020, 2022]

/-- The `year == 2024 → map_year = 2022` alias of `get_links_gfc_fcs30d`. -/
def gfc_fcs30d_map_year (year : ℤ) : ℤ := if year = 2024 then 2022 else year

/-- Closed-rectangle intersection: shapely `box(..).intersects(..)` for
valid boxes, where touching boundaries count as intersecting.  Arguments
are `(min_lat, max_lat, min_lon, max_lon)` of the two boxes. -/
def boxIntersects (aMinLat aMaxLat aMinLon aMaxLon bMinLat bMaxLat bMinLon bMaxLon : ℚ) : Prop :=
  aMinLon ≤ bMaxLon ∧ bMinLon ≤ aMaxLon ∧ aMinLat ≤ bMaxLat ∧ bMinLat ≤ aMaxLat

instance (a b c d p q r s : ℚ) : Decidable (boxIntersects a b c d p q r s) := by
  unfold boxIntersects; infer_instance

/-- `get_links_gfc_fcs30d` of link_generator.py (lines 74-121): global
years always yield the single archive link; otherwise a predefined region
must intersect the AOI; an unknown map year yields nothing. -/
def get_links_gfc_fcs30d (year : ℤ) (min_lat max_lat min_lon max_lon : ℚ) : List String :=
  let map_year := gfc_fcs30d_map_year year
  if map_year ∈ global_coverage_years then [gfc_fcs30d_link map_year]
  else
    match predefined_bboxes map_year with
    | some (bMinLat, bMaxLat, bMinLon, bMaxLon) =>
      if boxIntersects min_lat max_lat min_lon max_lon bMinLat bMaxLat bMinLon bMaxLon
      then [gfc_fcs30d_link map_year]
      else []
    | none => []

/-- FROM_GLC 2017 link template (`download/1/{id}`), shared by
link_generator.py and `2017/Download_FROM_GLC_2017.py`. -/
def glc2017_link (i : String) : String :=
  "https://data-starcloud.pcl.ac.cn/api/en/resourceFile/download/1/" ++ i

/-- `ele['name'].split('.')[0]`. -/
def nameStem (name : String) : List Char := (splitChar '.' name.data).headD []

/-- Python list slice `parts[-2:]`. -/
def lastTwo {α : Type} (l : List α) : List α := l.drop (l.length - 2)

/-- Parsing step of `get_links_from_glc_2017` (link_generator.py lines
244-245): the last two underscore-separated fields of the name stem read
as integers; `ValueError` and `IndexError` are caught, giving `none`. -/
def parseTrailingLatLon (name : String) : Option (ℤ × ℤ) :=
  match lastTwo (splitChar '_' (nameStem name)) with
  | [a, b] =>
    match pyStrInt a, pyStrInt b with
    | some lat, some lon => some (lat, lon)
    | _, _ => none
  | _ => none

/-- `ele['name'].endswith('.tif')`. -/
def endsWithTif (name : String) : Bool := List.isSuffixOf ".tif".data name.data

/-- `get_links_from_glc_2017` of link_generator.py (lines 233-251): keeps
a `.tif` catalog entry when its parsed `(lat, lon)` lies inside the
bounding box; parse failures are skipped. -/
def get_links_from_glc_2017 (meta : List CatalogEntry)
    (min_lat max_lat min_lon max_lon : ℚ) : List String :=
  meta.filterMap (fun e =>
    if endsWithTif e.name then
      match parseTrailingLatLon e.name with
      | some (lat, lon) =>
        if min_lon ≤ (lon : ℚ) ∧ (lon : ℚ) ≤ max_lon ∧ min_lat ≤ (lat : ℚ) ∧ (lat : ℚ) ≤ max_lat
        then some (glc2017_link e.id) else none
      | none => none
    else none)

/-- Parsing step of `get_links_for_region` in
`2017/Download_FROM_GLC_2017.py` (line 74): `lat, lon =
ele['name'].split('.')[0].split('_')[1:]` — all fields after the first,
which must be exactly two; there is no `try`, so a failure aborts the
whole generator, modelled as `none`. -/
def scriptParseLatLon (name : String) : Option (ℤ × ℤ) :=
  match splitChar '_' (nameStem name) with
  | [] => none
  | _ :: rest =>
    match rest with
    | [a, b] =>
      match pyStrInt a, pyStrInt b with
      | some lat, some lon => some (lat, lon)
      | _, _ => none
    | _ => none

/-- The four-combination ±2° containment test of
`2017/Download_FROM_GLC_2017.py` (line 76). -/
def fudgeMatch (min_lat max_lat min_lon max_lon : ℚ) (lat lon : ℤ) : Prop :=
  (min_lon ≤ (lon : ℚ) ∧ (lon : ℚ) ≤ max_lon ∧ min_lat ≤ (lat : ℚ) ∧ (lat : ℚ) ≤ max_lat) ∨
  (min_lon ≤ (lon : ℚ) + 2 ∧ (lon : ℚ) + 2 ≤ max_lon ∧ min_lat ≤ (lat : ℚ) ∧ (lat : ℚ) ≤ max_lat) ∨
  (min_lon ≤ (lon : ℚ) ∧ (lon : ℚ) ≤ max_lon ∧ min_lat ≤ (lat : ℚ) + 2 ∧ (lat : ℚ) + 2 ≤ max_lat) ∨
  (min_lon ≤ (lon : ℚ) + 2 ∧ (lon : ℚ) + 2 ≤ max_lon ∧ min_lat ≤ (lat : ℚ) + 2 ∧ (lat : ℚ) + 2 ≤ max_lat)

instance (a b c d : ℚ) (lat lon : ℤ) : Decidable (fudgeMatch a b c d lat lon) := by
  unfold fudgeMatch; infer_instance

/-- `get_links_for_region` of `2017/Download_FROM_GLC_2017.py` (lines
66-77): like the link_generator resolver but with the ±2° fudge test and
without exception handling (`none` models an uncaught parse error). -/
def get_links_for_region_2017 (meta : List CatalogEntry)
    (min_lat max_lat min_lon max_lon : ℚ) : Option (List String) :=
  match meta with
  | [] => some []
  | e :: rest =>
    if endsWithTif e.name then
      match scriptParseLatLon e.name with
      | none => none
      | some (lat, lon) =>
        (get_links_for_region_2017 rest min_lat max_lat min_lon max_lon).map
          (fun tail =>
            if fudgeMatch min_lat max_lat min_lon max_lon lat lon
            then glc2017_link e.id :: tail else tail)
    else get_links_for_region_2017 rest min_lat max_lat min_lon max_lon

/-- The inner `adjust_to_nearest_10` of `get_links_from_glc_2015`
(link_generator.py lines 203-207): latitude clamped to `[-60, 80]`,
longitude to `[-180, 180]`. -/
def glc2015_adjust (value : ℚ) (is_latitude is_min : Bool) : ℚ :=
  if is_latitude then
    if is_min then max (-60) ((⌊value / 10⌋ : ℚ) * 10)
    else min 80 ((⌊(value + 9) / 10⌋ : ℚ) * 10)
  else
    if is_min then max (-180) ((⌊value / 10⌋ : ℚ) * 10)
    else min 180 ((⌊(value + 9) / 10⌋ : ℚ) * 10)

/-- The tile label built by `get_links_from_glc_2015` (link_generator.py
lines 222-224): zero-padded digits first, then the hemisphere letter, in
the order `{lon_label}{lat_label}.tif`. -/
def tileName2015 (lat lon : ℤ) : String :=
  let lat_label := padZeros 2 (natDigits lat.natAbs) ++ [if lat ≥ 0 then 'N' else 'S']
  let lon_label := padZeros 3 (natDigits lon.natAbs) ++ [if lon ≥ 0 then 'E' else 'W']
  (⟨lon_label ++ lat_label ++ ".tif".data⟩ : String)

/-- FROM_GLC 2015 link template (`download/3/{id}`). -/
def glc2015_link (i : String) : String :=
  "https://data-starcloud.pcl.ac.cn/api/en/resourceFile/download/3/" ++ i

/-- `get_links_from_glc_2015` of link_generator.py (lines 201-230):
quantize the box, enumerate latitudes descending and longitudes
ascending, and look each tile label up in the catalog (first match). -/
def get_links_from_glc_2015 (meta : List CatalogEntry)
    (min_lat max_lat min_lon max_lon : ℚ) : List String :=
  let lat_min := pyInt (glc2015_adjust min_lat true true)
  let lat_max := pyInt (glc2015_adjust max_lat true false)
  let lon_min := pyInt (glc2015_adjust min_lon false true)
  let lon_max := pyInt (glc2015_adjust max_lon false false)
  (pyRangeDown lat_max lat_min).flatMap (fun lat =>
    (pyRangeUp lon_min lon_max).filterMap (fun lon =>
      (meta.find? (fun e => e.name == tileName2015 lat lon)).map
        (fun e => glc2015_link e.id)))

/-- The inner `adjust_to_nearest_10` of `get_links_gfc_treecover2000`
(link_generator.py lines 291-301): latitude clamped to `[-50, 80]`. -/
def tc2000_adjust (value : ℚ) (is_latitude is_min : Bool) : ℚ :=
  if is_latitude then
    if is_min then max (-50) ((⌊value / 10⌋ : ℚ) * 10)
    else min 80 ((⌊(value + 9) / 10⌋ : ℚ) * 10)
  else
    if is_min then max (-180) ((⌊value / 10⌋ : ℚ) * 10)
    else min 180 ((⌊(value + 9) / 10⌋ : ℚ) * 10)

/-- URL built by `get_links_gfc_treecover2000` for one grid corner. -/
def tc2000_link (lat lon : ℤ) : String :=
  let lat_label := padZeros 2 (natDigits lat.natAbs) ++ [if lat ≥ 0 then 'N' else 'S']
  let lon_label := padZeros 3 (natDigits lon.natAbs) ++ [if lon ≥ 0 then 'E' else 'W']
  "https://storage.googleapis.com/earthenginepartners-hansen/GFC-2023-v1.11/Hansen_GFC-2023-v1.11_treecover2000_" ++
    (⟨lat_label⟩ : String) ++ "_" ++ (⟨lon_label⟩ : String) ++ ".tif"

/-- `get_links_gfc_treecover2000` of link_generator.py (lines 289-316):
same 10° enumeration as FROM_GLC 2015 but the URL is constructed
directly from the labels. -/
def get_links_gfc_treecover2000 (min_lat max_lat min_lon max_lon : ℚ) : List String :=
  let lat_min := pyInt (tc2000_adjust min_lat true true)
  let lat_max := pyInt (tc2000_adjust max_lat true false)
  let lon_min := pyInt (tc2000_adjust min_lon false true)
  let lon_max := pyInt (tc2000_adjust max_lon false false)
  (pyRangeDown lat_max lat_min).flatMap (fun lat =>
    (pyRangeUp lon_min lon_max).map (fun lon => tc2000_link lat lon))

/-- The module-level `adjust_to_nearest_10` of link_generator.py (lines
27-31), clamped to `[-180, 180]`. -/
def adjust_to_nearest_10 (value : ℚ) (is_min : Bool) : ℚ :=
  if is_min then max (-180) ((⌊value / 10⌋ : ℚ) * 10)
  else min 180 ((⌊(value + 9) / 10⌋ : ℚ) * 10)

/-- The `{'E' if x >= 0 else 'W'}{abs(x)}` label of
`get_links_glc_fcs30d_unofficial`. -/
def ewLabel (x : ℤ) : List Char := (if x ≥ 0 then 'E' else 'W') :: natDigits x.natAbs

/-- URL emitted by `get_links_glc_fcs30d_unofficial` for the 10° cell
starting at `lon`: the 5° band with the smaller absolute value is named
first. -/
def glc_fcs30d_unofficial_link (lon : ℤ) : String :=
  let pair := if |lon| < |lon + 5| then (lon, lon + 5) else (lon + 5, lon)
  "https://zenodo.org/records/8239305/files/GLC_FCS30D_19852022maps_" ++
    (⟨ewLabel pair.1⟩ : String) ++ "-" ++ (⟨ewLabel pair.2⟩ : String) ++ ".zip?download=1"

/-- `get_links_glc_fcs30d_unofficial` of link_generator.py (lines 33-42):
longitude-only enumeration with an inclusive upper bound
(`range(lon_min, lon_max + 1, 10)`); the latitude arguments are unused. -/
def get_links_glc_fcs30d_unofficial (min_lat max_lat min_lon max_lon : ℚ) : List String :=
  let lon_min := pyInt (adjust_to_nearest_10 min_lon true)
  let lon_max := pyInt (adjust_to_nearest_10 max_lon false)
  (pyRangeUp lon_min (lon_max + 1)).map glc_fcs30d_unofficial_link

/-- `_get_left_decval` of link_generator.py (lines 45-51): `int(val)`
truncation toward zero, then a decade computation by cases on the sign. -/
def _get_left_decval (v : ℚ) : ℤ :=
  let val := pyInt v
  if val % 10 = 0 then val
  else if 0 < val then ((val.natAbs / 10 : ℕ) : ℤ) * 10
  else -(1 + ((val.natAbs / 10 : ℕ) : ℤ)) * 10

/-! Helper lemmas -/

theorem pairLt_irrefl (a : ℤ × ℤ) : ¬ pairLt a a := by
  unfold pairLt; omega

theorem pairLt_trans {a b c : ℤ × ℤ} (h1 : pairLt a b) (h2 : pairLt b c) : pairLt a c := by
  unfold pairLt at h1 h2 ⊢; omega

theorem pairLt_of_not_lt {a b c : ℤ × ℤ} (h1 : ¬ pairLt b a) (h2 : pairLt b c) :
    pairLt a c := by
  unfold pairLt at h1 h2 ⊢; omega

theorem pyMinBy_spec (key : ℤ → ℤ × ℤ) (x : ℤ) (xs : List ℤ) :
    pyMinBy key x xs ∈ x :: xs ∧
    ∀ y ∈ x :: xs, ¬ pairLt (key y) (key (pyMinBy key x xs)) := by
  induction xs generalizing x with
  | nil =>
    refine ⟨List.mem_cons_self _ _, ?_⟩
    intro y hy
    rcases List.mem_cons.mp hy with rfl | h
    · exact pairLt_irrefl _
    · exact absurd h (List.not_mem_nil _)
  | cons z zs ih =>
    by_cases hc : pairLt (key z) (key x)
    · have hfold : pyMinBy key x (z :: zs) = pyMinBy key z zs := by
        unfold pyMinBy
        simp only [List.foldl_cons]
        rw [if_pos hc]
      rw [hfold]
      obtain ⟨ihm, ihmin⟩ := ih z
      refine ⟨?_, ?_⟩
      · rcases List.mem_cons.mp ihm with h | h
        · rw [h]; exact List.mem_cons_of_mem _ (List.mem_cons_self _ _)
        · exact List.mem_cons_of_mem _ (List.mem_cons_of_mem _ h)
      · intro y hy
        rcases List.mem_cons.mp hy with rfl | hy'
        · intro hx
          exact (ihmin _ (List.mem_cons_self _ _)) (pairLt_trans hc hx)
        · rcases List.mem_cons.mp hy' with rfl | hy''
          · exact ihmin _ (List.mem_cons_self _ _)
          · exact ihmin _ (List.mem_cons_of_mem _ hy'')
    · have hfold : pyMinBy key x (z :: zs) = pyMinBy key x zs := by
        unfold pyMinBy
        simp only [List.foldl_cons]
        rw [if_neg hc]
      rw [hfold]
      obtain ⟨ihm, ihmin⟩ := ih x
      refine ⟨?_, ?_⟩
      · rcases List.mem_cons.mp ihm with h | h
        · rw [h]; exact List.mem_cons_self _ _
        · exact List.mem_cons_of_mem _ (List.mem_cons_of_mem _ h)
      · intro y hy
        rcases List.mem_cons.mp hy with rfl | hy'
        · exact ihmin _ (List.mem_cons_self _ _)
        · rcases List.mem_cons.mp hy' with rfl | hy''
          · intro hz
            exact (ihmin _ (List.mem_cons_self _ _)) (pairLt_of_not_lt hc hz)
          · exact ihmin _ (List.mem_cons_of_mem _ hy'')

/-! Claim theorems -/

/-- C2: for every nonempty list of available years, `find_closest_year`
returns the requested year when it is present, and otherwise the element
minimizing `(|year - requested|, -year)` lexicographically (ties toward
the more recent year); in particular for `{2000, 2010}` a request for
2005 gives 2010 and a request for 2003 gives 2000. -/
theorem find_closest_year_spec (target_year : ℤ) (ys : List ℤ) (hne : ys ≠ []) :
    (target_year ∈ ys → find_closest_year target_year ys = some target_year) ∧
    (∃ m, find_closest_year target_year ys = some m ∧ m ∈ ys ∧
      ∀ y ∈ ys, ¬ pairLt (closestKey target_year y) (closestKey target_year m)) ∧
    find_closest_year 2005 [2000, 2010] = some 2010 ∧
    find_closest_year 2003 [2000, 2010] = some 2000 := by
  match ys, hne with
  | x :: xs, _ =>
    obtain ⟨hm, hmin⟩ := pyMinBy_spec (closestKey target_year) x xs
    refine ⟨?_, ⟨pyMinBy (closestKey target_year) x xs, rfl, hm, hmin⟩, ?_, ?_⟩
    · intro ht
      have h := hmin target_year ht
      have heq : pyMinBy (closestKey target_year) x xs = target_year := by
        simp only [closestKey, pairLt, Int.abs_eq_natAbs] at h
        omega
      rw [find_closest_year, heq]
    · norm_num [find_closest_year, pyMinBy, closestKey, pairLt]
    · norm_num [find_closest_year, pyMinBy, closestKey, pairLt]

/-- Witness for C2 at the concrete inputs from the claim. -/
theorem find_closest_year_spec_witness :
    find_closest_year 2005 [2000, 2010] = some 2010 ∧
    find_closest_year 2003 [2000, 2010] = some 2000 :=
  (find_closest_year_spec 2005 [2000, 2010] (by simp)).2.2

/-- C7: with an undefined (`none`) or empty availability list, the year
resolution of the `__main__` driver keeps the requested year unchanged. -/
theorem resolve_year_empty (year : ℤ) :
    resolve_year year none = year ∧ resolve_year year (some []) = year := by
  constructor
  · rfl
  · simp [resolve_year]

/-- C5 counterexample: at `v = -1/2`, `_get_left_decval` returns 0 while
`10 * ⌊v / 10⌋ = -10`, so the claimed identity fails on negative
non-integer inputs (the `int(val)` truncation rounds toward zero). -/
theorem get_left_decval_counterexample :
    _get_left_decval (-1/2) = 0 ∧ 10 * ⌊((-1 : ℚ)/2) / 10⌋ = -10 ∧ (0 : ℤ) ≠ -10 := by
  refine ⟨?_, ?_, by decide⟩
  · have hp : pyInt (-1/2) = 0 := by
      unfold pyInt
      rw [if_pos (by norm_num)]
      rw [Int.ceil_eq_iff]
      norm_num
    simp only [_get_left_decval, hp]
    norm_num
  · have hf : (⌊((-1 : ℚ)/2) / 10⌋ : ℤ) = -1 := by
      rw [Int.floor_eq_iff]
      norm_num
    rw [hf]
    norm_num

/-- C5 amended: `_get_left_decval v` equals the decade floor of the
zero-truncation `int(v)`: it is the unique multiple of 10 with
`10 * k ≤ int(v) < 10 * (k + 1)`; the claimed `10 * ⌊v / 10⌋` holds only
when `int(v)` and `v` share the same decade. -/
theorem get_left_decval_amended (v : ℚ) :
    ∃ k : ℤ, _get_left_decval v = 10 * k ∧ 10 * k ≤ pyInt v ∧ pyInt v < 10 * k + 10 := by
  have hd : _get_left_decval v =
      (if pyInt v % 10 = 0 then pyInt v
       else if 0 < pyInt v then (((pyInt v).natAbs / 10 : ℕ) : ℤ) * 10
       else -(1 + (((pyInt v).natAbs / 10 : ℕ) : ℤ)) * 10) := rfl
  rw [hd]
  set n := pyInt v
  by_cases h1 : n % 10 = 0
  · exact ⟨n / 10, by rw [if_pos h1]; omega, by omega, by omega⟩
  · by_cases h2 : 0 < n
    · exact ⟨(n.natAbs / 10 : ℕ), by rw [if_neg h1, if_pos h2]; ring, by omega, by omega⟩
    · exact ⟨-(1 + ((n.natAbs / 10 : ℕ) : ℤ)), by rw [if_neg h1, if_neg h2]; ring,
        by omega, by omega⟩

theorem floor_ten_mul (k : ℤ) : ⌊(10 * (k : ℚ)) / 10⌋ = k := by
  have h : (10 * (k : ℚ)) / 10 = (k : ℚ) := by ring
  rw [h, Int.floor_intCast]

theorem floor_ten_mul_add_nine (k : ℤ) : ⌊(10 * (k : ℚ) + 9) / 10⌋ = k := by
  have h : (10 * (k : ℚ) + 9) / 10 = (k : ℚ) + 9/10 := by ring
  rw [h, Int.floor_int_add]
  have h9 : ⌊(9/10 : ℚ)⌋ = 0 := by
    rw [Int.floor_eq_iff]
    norm_num
  rw [h9]
  ring

theorem adjust_min_branch (A : ℚ) (k : ℤ) (h : A ≤ 10 * (k : ℚ)) :
    max A ((⌊(10 * (k : ℚ)) / 10⌋ : ℚ) * 10) = 10 * (k : ℚ) := by
  rw [floor_ten_mul, max_eq_right (by linarith)]
  ring

theorem adjust_max_branch (B : ℚ) (k : ℤ) (h : 10 * (k : ℚ) ≤ B) :
    min B ((⌊(10 * (k : ℚ) + 9) / 10⌋ : ℚ) * 10) = 10 * (k : ℚ) := by
  rw [floor_ten_mul_add_nine, min_eq_right (by linarith)]
  ring

/-- C6 counterexample: `-70` is a multiple of 10, yet the FROM_GLC 2015
latitude quantizer clamps it to `-60`, so quantization is not idempotent
on every grid-aligned value. -/
theorem adjust_idem_counterexample :
    (∃ k : ℤ, (-70 : ℚ) = 10 * k) ∧ glc2015_adjust (-70) true true ≠ -70 := by
  refine ⟨⟨-7, by norm_num⟩, ?_⟩
  have hf : (⌊(-70 : ℚ) / 10⌋ : ℤ) = -7 := by
    rw [Int.floor_eq_iff]
    norm_num
  show max (-60 : ℚ) ((⌊(-70 : ℚ) / 10⌋ : ℚ) * 10) ≠ -70
  rw [hf]
  norm_num [max_def]

/-- C6 amended: every quantizer variant is idempotent on multiples of 10
that respect its own clamp bound (at least the axis minimum when
rounding down, at most the axis maximum when rounding up). -/
theorem adjust_idem_amended (k : ℤ) :
    ((-180 : ℚ) ≤ 10 * (k : ℚ) → adjust_to_nearest_10 (10 * (k : ℚ)) true = 10 * (k : ℚ)) ∧
    (10 * (k : ℚ) ≤ 180 → adjust_to_nearest_10 (10 * (k : ℚ)) false = 10 * (k : ℚ)) ∧
    ((-60 : ℚ) ≤ 10 * (k : ℚ) → glc2015_adjust (10 * (k : ℚ)) true true = 10 * (k : ℚ)) ∧
    (10 * (k : ℚ) ≤ 80 → glc2015_adjust (10 * (k : ℚ)) true false = 10 * (k : ℚ)) ∧
    ((-180 : ℚ) ≤ 10 * (k : ℚ) → glc2015_adjust (10 * (k : ℚ)) false true = 10 * (k : ℚ)) ∧
    (10 * (k : ℚ) ≤ 180 → glc2015_adjust (10 * (k : ℚ)) false false = 10 * (k : ℚ)) ∧
    ((-50 : ℚ) ≤ 10 * (k : ℚ) → tc2000_adjust (10 * (k : ℚ)) true true = 10 * (k : ℚ)) ∧
    (10 * (k : ℚ) ≤ 80 → tc2000_adjust (10 * (k : ℚ)) true false = 10 * (k : ℚ)) ∧
    ((-180 : ℚ) ≤ 10 * (k : ℚ) → tc2000_adjust (10 * (k : ℚ)) false true = 10 * (k : ℚ)) ∧
    (10 * (k : ℚ) ≤ 180 → tc2000_adjust (10 * (k : ℚ)) false false = 10 * (k : ℚ)) := by
  refine ⟨fun h => ?_, fun h => ?_, fun h => ?_, fun h => ?_, fun h => ?_, fun h => ?_,
    fun h => ?_, fun h => ?_, fun h => ?_, fun h => ?_⟩
  · exact adjust_min_branch (-180) k h
  · exact adjust_max_branch 180 k h
  · exact adjust_min_branch (-60) k h
  · exact adjust_max_branch 80 k h
  · exact adjust_min_branch (-180) k h
  · exact adjust_max_branch 180 k h
  · exact adjust_min_branch (-50) k h
  · exact adjust_max_branch 80 k h
  · exact adjust_min_branch (-180) k h
  · exact adjust_max_branch 180 k h

/-- Witness for C6 amended at `k = 2` (the aligned value 20). -/
theorem adjust_idem_amended_witness :
    adjust_to_nearest_10 (10 * ((2 : ℤ) : ℚ)) true = 10 * ((2 : ℤ) : ℚ) ∧
    adjust_to_nearest_10 (10 * ((2 : ℤ) : ℚ)) false = 10 * ((2 : ℤ) : ℚ) ∧
    glc2015_adjust (10 * ((2 : ℤ) : ℚ)) true true = 10 * ((2 : ℤ) : ℚ) ∧
    glc2015_adjust (10 * ((2 : ℤ) : ℚ)) true false = 10 * ((2 : ℤ) : ℚ) ∧
    glc2015_adjust (10 * ((2 : ℤ) : ℚ)) false true = 10 * ((2 : ℤ) : ℚ) ∧
    glc2015_adjust (10 * ((2 : ℤ) : ℚ)) false false = 10 * ((2 : ℤ) : ℚ) ∧
    tc2000_adjust (10 * ((2 : ℤ) : ℚ)) true true = 10 * ((2 : ℤ) : ℚ) ∧
    tc2000_adjust (10 * ((2 : ℤ) : ℚ)) true false = 10 * ((2 : ℤ) : ℚ) ∧
    tc2000_adjust (10 * ((2 : ℤ) : ℚ)) false true = 10 * ((2 : ℤ) : ℚ) ∧
    tc2000_adjust (10 * ((2 : ℤ) : ℚ)) false false = 10 * ((2 : ℤ) : ℚ) := by
  have h := adjust_idem_amended 2
  exact ⟨h.1 (by norm_num), h.2.1 (by norm_num), h.2.2.1 (by norm_num),
    h.2.2.2.1 (by norm_num), h.2.2.2.2.1 (by norm_num), h.2.2.2.2.2.1 (by norm_num),
    h.2.2.2.2.2.2.1 (by norm_num), h.2.2.2.2.2.2.2.1 (by norm_num),
    h.2.2.2.2.2.2.2.2.1 (by norm_num), h.2.2.2.2.2.2.2.2.2 (by norm_num)⟩

/-- C3: for a non-global GFC_FCS30D map year, a predefined region bbox
would have to intersect the AOI to yield the single link, and an
unrecognized map year yields no link at all.  On the code's tables every
predefined-region year is also a global-coverage year, so the region
branch never fires and the first part holds vacuously. -/
theorem gfc_fcs30d_region_logic (year : ℤ) (a b c d : ℚ)
    (hng : gfc_fcs30d_map_year year ∉ global_coverage_years) :
    (∀ p q r s, predefined_bboxes (gfc_fcs30d_map_year year) = some (p, q, r, s) →
      (get_links_gfc_fcs30d year a b c d).length =
        (if boxIntersects a b c d p q r s then 1 else 0)) ∧
    (predefined_bboxes (gfc_fcs30d_map_year year) = none →
      get_links_gfc_fcs30d year a b c d = []) := by
  have hng2 := hng
  simp [global_coverage_years] at hng2
  obtain ⟨e0, e1, e2, e3, e4, e5, e6⟩ := hng2
  have hnone : predefined_bboxes (gfc_fcs30d_map_year year) = none := by
    simp [predefined_bboxes, e0, e1, e2, e3, e4, e6]
  refine ⟨?_, ?_⟩
  · intro p q r s hsome
    rw [hnone] at hsome
    cases hsome
  · intro _
    simp only [get_links_gfc_fcs30d]
    rw [if_neg hng, hnone]

/-- Witness for C3 at map year 2001 (neither global nor predefined). -/
theorem gfc_fcs30d_region_logic_witness :
    (∀ p q r s, predefined_bboxes (gfc_fcs30d_map_year 2001) = some (p, q, r, s) →
      (get_links_gfc_fcs30d 2001 0 1 0 1).length =
        (if boxIntersects 0 1 0 1 p q r s then 1 else 0)) ∧
    (predefined_bboxes (gfc_fcs30d_map_year 2001) = none →
      get_links_gfc_fcs30d 2001 0 1 0 1 = []) :=
  gfc_fcs30d_region_logic 2001 0 1 0 1 (by decide)

/-- C9: a `.tif` catalog entry whose name does not parse into two
trailing integer fields contributes no link and does not disturb the
links of the surrounding entries. -/
theorem glc2017_parse_failure_skipped (e : CatalogEntry) (hend : endsWithTif e.name = true)
    (hfail : parseTrailingLatLon e.name = none) (l1 l2 : List CatalogEntry) (a b c d : ℚ) :
    get_links_from_glc_2017 (l1 ++ e :: l2) a b c d =
      get_links_from_glc_2017 (l1 ++ l2) a b c d := by
  unfold get_links_from_glc_2017
  rw [List.filterMap_append, List.filterMap_append, List.filterMap_cons]
  simp [hend, hfail]

/-- Witness for C9: the unparseable entry `foo_ab_cd.tif` between two
well-formed entries is skipped. -/
theorem glc2017_parse_failure_skipped_witness :
    get_links_from_glc_2017
        [⟨"1", "a_5_6.tif"⟩, ⟨"2", "foo_ab_cd.tif"⟩, ⟨"3", "b_7_8.tif"⟩] 0 90 0 90 =
      get_links_from_glc_2017 [⟨"1", "a_5_6.tif"⟩, ⟨"3", "b_7_8.tif"⟩] 0 90 0 90 :=
  glc2017_parse_failure_skipped ⟨"2", "foo_ab_cd.tif"⟩ (by decide) (by decide)
    [⟨"1", "a_5_6.tif"⟩] [⟨"3", "b_7_8.tif"⟩] 0 90 0 90

/-- C1: the tile `(lat=10, lon=20)` and the bbox
`(min_lat=11, max_lat=13, min_lon=21, max_lon=23)`.  The original script
resolver (`2017/Download_FROM_GLC_2017.py`) matches it through the
`(lat+2, lon+2)` shifted variant and rejects the far bbox
`(15, 17, 25, 27)`, exactly as the claim states; the consolidated
`get_links_from_glc_2017` of link_generator.py checks only the exact
corner and yields nothing for the same input. -/
theorem glc2017_fudge_divergence :
    get_links_for_region_2017 [⟨"7", "x_10_20.tif"⟩] 11 13 21 23 =
      some ["https://data-starcloud.pcl.ac.cn/api/en/resourceFile/download/1/7"] ∧
    get_links_for_region_2017 [⟨"7", "x_10_20.tif"⟩] 15 17 25 27 = some [] ∧
    get_links_from_glc_2017 [⟨"7", "x_10_20.tif"⟩] 11 13 21 23 = [] := by
  have hp : scriptParseLatLon "x_10_20.tif" = some (10, 20) := by decide
  have hq : parseTrailingLatLon "x_10_20.tif" = some (10, 20) := by decide
  have he : endsWithTif "x_10_20.tif" = true := by decide
  have hf1 : fudgeMatch 11 13 21 23 10 20 := by
    unfold fudgeMatch
    norm_num
  have hf2 : ¬ fudgeMatch 15 17 25 27 10 20 := by
    unfold fudgeMatch
    norm_num
  refine ⟨?_, ?_, ?_⟩
  · simp only [get_links_for_region_2017, he, hp, hf1]
    simp [he, hp, hf1]
    decide
  · simp [get_links_for_region_2017, he, hp, hf2]
  · norm_num [get_links_from_glc_2017, he, hq]

theorem pyRangeUp_head_mem (start stop : ℤ) (h : start < stop) :
    start ∈ pyRangeUp start stop := by
  unfold pyRangeUp
  rw [List.mem_map]
  refine ⟨0, ?_, by omega⟩
  rw [List.mem_range]
  omega

theorem mem_pyRangeUp (start stop x : ℤ) (h1 : start ≤ x) (h2 : x < stop)
    (h3 : (10 : ℤ) ∣ x - start) : x ∈ pyRangeUp start stop := by
  unfold pyRangeUp
  rw [List.mem_map]
  obtain ⟨c, hc⟩ := h3
  refine ⟨c.toNat, ?_, by omega⟩
  rw [List.mem_range]
  omega

theorem pyRangeDown_head_mem (start stop : ℤ) (h : stop < start) :
    start ∈ pyRangeDown start stop := by
  unfold pyRangeDown
  rw [List.mem_map]
  refine ⟨0, ?_, by omega⟩
  rw [List.mem_range]
  omega

theorem pyInt_intCast (k : ℤ) : pyInt (k : ℚ) = k := by
  unfold pyInt
  split
  · exact Int.ceil_intCast k
  · exact Int.floor_intCast k

theorem cast_max_ten (a f : ℤ) :
    ((max a (10 * f) : ℤ) : ℚ) = max (a : ℚ) ((f : ℚ) * 10) := by
  rcases le_total a (10 * f) with h | h
  · rw [max_eq_right h,
      max_eq_right (show (a : ℚ) ≤ (f : ℚ) * 10 by exact_mod_cast (by linarith : a ≤ f * 10))]
    push_cast
    ring
  · rw [max_eq_left h,
      max_eq_left (show (f : ℚ) * 10 ≤ (a : ℚ) by exact_mod_cast (by linarith : f * 10 ≤ a))]

theorem cast_min_ten (a f : ℤ) :
    ((min a (10 * f) : ℤ) : ℚ) = min (a : ℚ) ((f : ℚ) * 10) := by
  rcases le_total (10 * f) a with h | h
  · rw [min_eq_right h,
      min_eq_right (show (f : ℚ) * 10 ≤ (a : ℚ) by exact_mod_cast (by linarith : f * 10 ≤ a))]
    push_cast
    ring
  · rw [min_eq_left h,
      min_eq_left (show (a : ℚ) ≤ (f : ℚ) * 10 by exact_mod_cast (by linarith : a ≤ f * 10))]

theorem quant_min_eq (lo : ℤ) (v : ℚ) :
    pyInt (max ((lo : ℤ) : ℚ) ((⌊v / 10⌋ : ℚ) * 10)) = max lo (10 * ⌊v / 10⌋) := by
  rw [show max ((lo : ℤ) : ℚ) ((⌊v / 10⌋ : ℚ) * 10) = ((max lo (10 * ⌊v / 10⌋) : ℤ) : ℚ) from
    (cast_max_ten lo ⌊v / 10⌋).symm]
  exact pyInt_intCast _

theorem quant_max_eq (hi : ℤ) (v : ℚ) :
    pyInt (min ((hi : ℤ) : ℚ) ((⌊(v + 9) / 10⌋ : ℚ) * 10)) = min hi (10 * ⌊(v + 9) / 10⌋) := by
  rw [show min ((hi : ℤ) : ℚ) ((⌊(v + 9) / 10⌋ : ℚ) * 10) =
      ((min hi (10 * ⌊(v + 9) / 10⌋) : ℤ) : ℚ) from (cast_min_ten hi ⌊(v + 9) / 10⌋).symm]
  exact pyInt_intCast _

theorem glc2015_lat_min_eq (v : ℚ) :
    pyInt (glc2015_adjust v true true) = max (-60) (10 * ⌊v / 10⌋) := by
  have h : glc2015_adjust v true true = max (((-60 : ℤ) : ℚ)) ((⌊v / 10⌋ : ℚ) * 10) := by
    show max (-60 : ℚ) ((⌊v / 10⌋ : ℚ) * 10) = _
    norm_num
  rw [h, quant_min_eq]

theorem glc2015_lat_max_eq (v : ℚ) :
    pyInt (glc2015_adjust v true false) = min 80 (10 * ⌊(v + 9) / 10⌋) := by
  have h : glc2015_adjust v true false = min (((80 : ℤ) : ℚ)) ((⌊(v + 9) / 10⌋ : ℚ) * 10) := by
    show min (80 : ℚ) ((⌊(v + 9) / 10⌋ : ℚ) * 10) = _
    norm_num
  rw [h, quant_max_eq]

theorem glc2015_lon_min_eq (v : ℚ) :
    pyInt (glc2015_adjust v false true) = max (-180) (10 * ⌊v / 10⌋) := by
  have h : glc2015_adjust v false true = max (((-180 : ℤ) : ℚ)) ((⌊v / 10⌋ : ℚ) * 10) := by
    show max (-180 : ℚ) ((⌊v / 10⌋ : ℚ) * 10) = _
    norm_num
  rw [h, quant_min_eq]

theorem glc2015_lon_max_eq (v : ℚ) :
    pyInt (glc2015_adjust v false false) = min 180 (10 * ⌊(v + 9) / 10⌋) := by
  have h : glc2015_adjust v false false = min (((180 : ℤ) : ℚ)) ((⌊(v + 9) / 10⌋ : ℚ) * 10) := by
    show min (180 : ℚ) ((⌊(v + 9) / 10⌋ : ℚ) * 10) = _
    norm_num
  rw [h, quant_max_eq]

theorem tc2000_lat_min_eq (v : ℚ) :
    pyInt (tc2000_adjust v true true) = max (-50) (10 * ⌊v / 10⌋) := by
  have h : tc2000_adjust v true true = max (((-50 : ℤ) : ℚ)) ((⌊v / 10⌋ : ℚ) * 10) := by
    show max (-50 : ℚ) ((⌊v / 10⌋ : ℚ) * 10) = _
    norm_num
  rw [h, quant_min_eq]

theorem tc2000_lat_max_eq (v : ℚ) :
    pyInt (tc2000_adjust v true false) = min 80 (10 * ⌊(v + 9) / 10⌋) := by
  have h : tc2000_adjust v true false = min (((80 : ℤ) : ℚ)) ((⌊(v + 9) / 10⌋ : ℚ) * 10) := by
    show min (80 : ℚ) ((⌊(v + 9) / 10⌋ : ℚ) * 10) = _
    norm_num
  rw [h, quant_max_eq]

theorem tc2000_lon_min_eq (v : ℚ) :
    pyInt (tc2000_adjust v false true) = max (-180) (10 * ⌊v / 10⌋) := by
  have h : tc2000_adjust v false true = max (((-180 : ℤ) : ℚ)) ((⌊v / 10⌋ : ℚ) * 10) := by
    show max (-180 : ℚ) ((⌊v / 10⌋ : ℚ) * 10) = _
    norm_num
  rw [h, quant_min_eq]

theorem tc2000_lon_max_eq (v : ℚ) :
    pyInt (tc2000_adjust v false false) = min 180 (10 * ⌊(v + 9) / 10⌋) := by
  have h : tc2000_adjust v false false = min (((180 : ℤ) : ℚ)) ((⌊(v + 9) / 10⌋ : ℚ) * 10) := by
    show min (180 : ℚ) ((⌊(v + 9) / 10⌋ : ℚ) * 10) = _
    norm_num
  rw [h, quant_max_eq]

theorem unofficial_lon_min_eq (v : ℚ) :
    pyInt (adjust_to_nearest_10 v true) = max (-180) (10 * ⌊v / 10⌋) := by
  have h : adjust_to_nearest_10 v true = max (((-180 : ℤ) : ℚ)) ((⌊v / 10⌋ : ℚ) * 10) := by
    show max (-180 : ℚ) ((⌊v / 10⌋ : ℚ) * 10) = _
    norm_num
  rw [h, quant_min_eq]

theorem unofficial_lon_max_eq (v : ℚ) :
    pyInt (adjust_to_nearest_10 v false) = min 180 (10 * ⌊(v + 9) / 10⌋) := by
  have h : adjust_to_nearest_10 v false = min (((180 : ℤ) : ℚ)) ((⌊(v + 9) / 10⌋ : ℚ) * 10) := by
    show min (180 : ℚ) ((⌊(v + 9) / 10⌋ : ℚ) * 10) = _
    norm_num
  rw [h, quant_max_eq]

/-- C4 counterexample: a catalog entry carrying exactly the label claimed
by the spec, `E030N10.tif`, is never matched even though the resolver
enumerates the grid corner `(lon=30, lat=10)`; the name the code builds
puts the digits before the hemisphere letter. -/
theorem glc2015_label_counterexample :
    tileName2015 10 30 ≠ "E030N10.tif" ∧
    get_links_from_glc_2015 [⟨"42", "E030N10.tif"⟩] 5 10 35 40 = [] := by
  refine ⟨by decide, ?_⟩
  have e1 : pyInt (glc2015_adjust 5 true true) = 0 := by
    rw [glc2015_lat_min_eq]
    have hf : (⌊(5 : ℚ) / 10⌋ : ℤ) = 0 := by
      rw [Int.floor_eq_iff]
      norm_num
    rw [hf]
    omega
  have e2 : pyInt (glc2015_adjust 10 true false) = 10 := by
    rw [glc2015_lat_max_eq]
    have hf : (⌊((10 : ℚ) + 9) / 10⌋ : ℤ) = 1 := by
      rw [Int.floor_eq_iff]
      norm_num
    rw [hf]
    omega
  have e3 : pyInt (glc2015_adjust 35 false true) = 30 := by
    rw [glc2015_lon_min_eq]
    have hf : (⌊(35 : ℚ) / 10⌋ : ℤ) = 3 := by
      rw [Int.floor_eq_iff]
      norm_num
    rw [hf]
    omega
  have e4 : pyInt (glc2015_adjust 40 false false) = 40 := by
    rw [glc2015_lon_max_eq]
    have hf : (⌊((40 : ℚ) + 9) / 10⌋ : ℤ) = 4 := by
      rw [Int.floor_eq_iff]
      norm_num
    rw [hf]
    omega
  simp only [get_links_from_glc_2015, e1, e2, e3, e4]
  decide

/-- C4 amended: the tile label has the zero-padded digits first and the
hemisphere letter second, `{abs(lon):03d}{E|W}{abs(lat):02d}{N|S}.tif`;
for `lon=30, lat=10` it is exactly `030E10N.tif`, and an entry carrying
that name is resolved to its link. -/
theorem glc2015_label_amended :
    tileName2015 10 30 = "030E10N.tif" ∧
    get_links_from_glc_2015 [⟨"42", "030E10N.tif"⟩] 5 10 35 40 =
      ["https://data-starcloud.pcl.ac.cn/api/en/resourceFile/download/3/42"] := by
  refine ⟨by decide, ?_⟩
  have e1 : pyInt (glc2015_adjust 5 true true) = 0 := by
    rw [glc2015_lat_min_eq]
    have hf : (⌊(5 : ℚ) / 10⌋ : ℤ) = 0 := by
      rw [Int.floor_eq_iff]
      norm_num
    rw [hf]
    omega
  have e2 : pyInt (glc2015_adjust 10 true false) = 10 := by
    rw [glc2015_lat_max_eq]
    have hf : (⌊((10 : ℚ) + 9) / 10⌋ : ℤ) = 1 := by
      rw [Int.floor_eq_iff]
      norm_num
    rw [hf]
    omega
  have e3 : pyInt (glc2015_adjust 35 false true) = 30 := by
    rw [glc2015_lon_min_eq]
    have hf : (⌊(35 : ℚ) / 10⌋ : ℤ) = 3 := by
      rw [Int.floor_eq_iff]
      norm_num
    rw [hf]
    omega
  have e4 : pyInt (glc2015_adjust 40 false false) = 40 := by
    rw [glc2015_lon_max_eq]
    have hf : (⌊((40 : ℚ) + 9) / 10⌋ : ℤ) = 4 := by
      rw [Int.floor_eq_iff]
      norm_num
    rw [hf]
    omega
  simp only [get_links_from_glc_2015, e1, e2, e3, e4]
  decide

/-- C8 counterexample: the degenerate bbox with `min_lat = max_lat = 10`
and `min_lon = max_lon = 20` lies fully inside the declared coverage
(`[-50, 80] × [-180, 180]`), yet the resolver produces no URL, because
the quantized grid ranges are half open and collapse. -/
theorem tc2000_coverage_counterexample :
    get_links_gfc_treecover2000 10 10 20 20 = [] ∧
    (-50 : ℚ) ≤ 10 ∧ (10 : ℚ) ≤ 80 ∧ (-180 : ℚ) ≤ 20 ∧ (20 : ℚ) ≤ 180 := by
  refine ⟨?_, by norm_num, by norm_num, by norm_num, by norm_num⟩
  have e1 : pyInt (tc2000_adjust 10 true true) = 10 := by
    rw [tc2000_lat_min_eq]
    have hf : (⌊(10 : ℚ) / 10⌋ : ℤ) = 1 := by
      rw [Int.floor_eq_iff]
      norm_num
    rw [hf]
    omega
  have e2 : pyInt (tc2000_adjust 10 true false) = 10 := by
    rw [tc2000_lat_max_eq]
    have hf : (⌊((10 : ℚ) + 9) / 10⌋ : ℤ) = 1 := by
      rw [Int.floor_eq_iff]
      norm_num
    rw [hf]
    omega
  have e3 : pyInt (tc2000_adjust 20 false true) = 20 := by
    rw [tc2000_lon_min_eq]
    have hf : (⌊(20 : ℚ) / 10⌋ : ℤ) = 2 := by
      rw [Int.floor_eq_iff]
      norm_num
    rw [hf]
    omega
  have e4 : pyInt (tc2000_adjust 20 false false) = 20 := by
    rw [tc2000_lon_max_eq]
    have hf : (⌊((20 : ℚ) + 9) / 10⌋ : ℤ) = 2 := by
      rw [Int.floor_eq_iff]
      norm_num
    rw [hf]
    omega
  simp only [get_links_gfc_treecover2000, e1, e2, e3, e4]
  decide

/-- C8 amended: every bounding box inside the declared coverage whose
sides each span at least one full 10° step resolves to a non-empty set
of TreeCover2000 URLs; degenerate slivers inside one grid row or column
can collapse to none, as the counterexample shows. -/
theorem tc2000_nonempty (min_lat max_lat min_lon max_lon : ℚ)
    (h1 : -50 ≤ min_lat) (h2 : min_lat + 10 ≤ max_lat) (h3 : max_lat ≤ 80)
    (h4 : -180 ≤ min_lon) (h5 : min_lon + 10 ≤ max_lon) (h6 : max_lon ≤ 180) :
    get_links_gfc_treecover2000 min_lat max_lat min_lon max_lon ≠ [] := by
  have b1 : -5 ≤ ⌊min_lat / 10⌋ := by
    rw [Int.le_floor]
    push_cast
    linarith
  have b2 : ⌊(max_lat + 9) / 10⌋ ≤ 8 := by
    have := Int.floor_lt.mpr (show (max_lat + 9) / 10 < ((9 : ℤ) : ℚ) by push_cast; linarith)
    omega
  have b3 : ⌊min_lat / 10⌋ + 1 ≤ ⌊(max_lat + 9) / 10⌋ := by
    have hfl : (⌊min_lat / 10⌋ : ℚ) ≤ min_lat / 10 := Int.floor_le _
    rw [Int.le_floor]
    push_cast
    linarith
  have b4 : -18 ≤ ⌊min_lon / 10⌋ := by
    rw [Int.le_floor]
    push_cast
    linarith
  have b5 : ⌊(max_lon + 9) / 10⌋ ≤ 18 := by
    have := Int.floor_lt.mpr (show (max_lon + 9) / 10 < ((19 : ℤ) : ℚ) by push_cast; linarith)
    omega
  have b6 : ⌊min_lon / 10⌋ + 1 ≤ ⌊(max_lon + 9) / 10⌋ := by
    have hfl : (⌊min_lon / 10⌋ : ℚ) ≤ min_lon / 10 := Int.floor_le _
    rw [Int.le_floor]
    push_cast
    linarith
  have E1 : pyInt (tc2000_adjust min_lat true true) = 10 * ⌊min_lat / 10⌋ := by
    rw [tc2000_lat_min_eq]
    omega
  have E2 : pyInt (tc2000_adjust max_lat true false) = 10 * ⌊(max_lat + 9) / 10⌋ := by
    rw [tc2000_lat_max_eq]
    omega
  have E3 : pyInt (tc2000_adjust min_lon false true) = 10 * ⌊min_lon / 10⌋ := by
    rw [tc2000_lon_min_eq]
    omega
  have E4 : pyInt (tc2000_adjust max_lon false false) = 10 * ⌊(max_lon + 9) / 10⌋ := by
    rw [tc2000_lon_max_eq]
    omega
  intro hnil
  have hmem : tc2000_link (10 * ⌊(max_lat + 9) / 10⌋) (10 * ⌊min_lon / 10⌋) ∈
      get_links_gfc_treecover2000 min_lat max_lat min_lon max_lon := by
    simp only [get_links_gfc_treecover2000, E1, E2, E3, E4]
    rw [List.mem_flatMap]
    refine ⟨10 * ⌊(max_lat + 9) / 10⌋, pyRangeDown_head_mem _ _ (by omega), ?_⟩
    rw [List.mem_map]
    exact ⟨10 * ⌊min_lon / 10⌋, pyRangeUp_head_mem _ _ (by omega), rfl⟩
  rw [hnil] at hmem
  exact absurd hmem (List.not_mem_nil _)

/-- Witness for C8 amended at the bbox `(0, 10, 0, 10)`. -/
theorem tc2000_nonempty_witness : get_links_gfc_treecover2000 0 10 0 10 ≠ [] :=
  tc2000_nonempty 0 10 0 10 (by norm_num) (by norm_num) (by norm_num) (by norm_num)
    (by norm_num) (by norm_num)

/-- C10: for every bbox with `-180 ≤ min_lon ≤ max_lon ≤ 180` the
unofficial GLC_FCS30D resolver yields at least one URL (the longitude
range has an inclusive upper bound), and when `max_lon` is an exact
multiple of 10 the 10° cell starting at `max_lon` is among the URLs. -/
theorem glc_fcs30d_unofficial_spec (min_lat max_lat min_lon max_lon : ℚ)
    (h1 : -180 ≤ min_lon) (h2 : min_lon ≤ max_lon) (h3 : max_lon ≤ 180) :
    get_links_glc_fcs30d_unofficial min_lat max_lat min_lon max_lon ≠ [] ∧
    ∀ k : ℤ, max_lon = 10 * (k : ℚ) →
      glc_fcs30d_unofficial_link (10 * k) ∈
        get_links_glc_fcs30d_unofficial min_lat max_lat min_lon max_lon := by
  have b4 : -18 ≤ ⌊min_lon / 10⌋ := by
    rw [Int.le_floor]
    push_cast
    linarith
  have b5 : ⌊(max_lon + 9) / 10⌋ ≤ 18 := by
    have := Int.floor_lt.mpr (show (max_lon + 9) / 10 < ((19 : ℤ) : ℚ) by push_cast; linarith)
    omega
  have b6 : ⌊min_lon / 10⌋ ≤ ⌊(max_lon + 9) / 10⌋ := by
    apply Int.floor_mono
    linarith
  have E3 : pyInt (adjust_to_nearest_10 min_lon true) = 10 * ⌊min_lon / 10⌋ := by
    rw [unofficial_lon_min_eq]
    omega
  have E4 : pyInt (adjust_to_nearest_10 max_lon false) = 10 * ⌊(max_lon + 9) / 10⌋ := by
    rw [unofficial_lon_max_eq]
    omega
  constructor
  · intro hnil
    have hmem : glc_fcs30d_unofficial_link (10 * ⌊min_lon / 10⌋) ∈
        get_links_glc_fcs30d_unofficial min_lat max_lat min_lon max_lon := by
      simp only [get_links_glc_fcs30d_unofficial, E3, E4]
      rw [List.mem_map]
      exact ⟨10 * ⌊min_lon / 10⌋, pyRangeUp_head_mem _ _ (by omega), rfl⟩
    rw [hnil] at hmem
    exact absurd hmem (List.not_mem_nil _)
  · intro k hk
    have hg2k : ⌊(max_lon + 9) / 10⌋ = k := by
      rw [hk]
      exact floor_ten_mul_add_nine k
    simp only [get_links_glc_fcs30d_unofficial, E3, E4, hg2k]
    rw [List.mem_map]
    refine ⟨10 * k, mem_pyRangeUp _ _ _ (by omega) (by omega) ⟨k - ⌊min_lon / 10⌋, by ring⟩, rfl⟩

/-- Witness for C10 at the bbox `(0, 0, 15, 20)` with `max_lon = 20`. -/
theorem glc_fcs30d_unofficial_spec_witness :
    get_links_glc_fcs30d_unofficial 0 0 15 20 ≠ [] ∧
    glc_fcs30d_unofficial_link (10 * 2) ∈ get_links_glc_fcs30d_unofficial 0 0 15 20 := by
  have h := glc_fcs30d_unofficial_spec 0 0 15 20 (by norm_num) (by norm_num) (by norm_num)
  exact ⟨h.1, h.2 2 (by norm_num)⟩

end Geo
